import Mathlib

/-!
Verification of the protocol/session engine of the cosim_jtag repository.

This development shallowly embeds the two C source variants,
`src/cosim_jtag.c` and `src/vhpi_jtag.c`: the multi-valued logic codes
(`HDL_LOGIC_STATES`), the persistent signal state, the per-byte protocol
decoder (the body of `process_socket`), and the per-tick engine entry
point (`cosim_jtag_tick` / `vhpi_jtag_tick`).

System calls are modelled by an explicit per-tick oracle (`TickInput`)
describing what each call would return this tick; the C `FAIL` macro,
which terminates the process (or stops the simulator), is modelled by
`none`. Bytes and logic values are `Nat` (the C code stores them in
`char`; all compared literals are below 128, so signedness is
irrelevant). Command bytes appear as their ASCII codes: 'B' = 66,
'b' = 98, 'R' = 82, 'Q' = 81, '0'..'7' = 48..55, 'r'..'u' = 114..117,
'1' = 49, 'Z' = 90.
-/

/-- `HDL_U` from enum `HDL_LOGIC_STATES`: uninitialized. -/
def HDL_U : Nat := 0

/-- `HDL_X` from enum `HDL_LOGIC_STATES`: forcing unknown. -/
def HDL_X : Nat := 1

/-- `HDL_0` from enum `HDL_LOGIC_STATES`: forcing 0 (driven-0). -/
def HDL_0 : Nat := 2

/-- `HDL_1` from enum `HDL_LOGIC_STATES`: forcing 1 (driven-1). -/
def HDL_1 : Nat := 3

/-- `HDL_Z` from enum `HDL_LOGIC_STATES`: high impedance. -/
def HDL_Z : Nat := 4

/-- `HDL_W` from enum `HDL_LOGIC_STATES`: weak unknown. -/
def HDL_W : Nat := 5

/-- `HDL_L` from enum `HDL_LOGIC_STATES`: weak 0. -/
def HDL_L : Nat := 6

/-- `HDL_H` from enum `HDL_LOGIC_STATES`: weak 1 (the "high variant"). -/
def HDL_H : Nat := 7

/-- `HDL_D` from enum `HDL_LOGIC_STATES`: don't care. -/
def HDL_D : Nat := 8

/-- C macro `HDL_TO_INT(hdl)`: `(hdl) == HDL_1 || (hdl) == HDL_H`. -/
def HDL_TO_INT (hdl : Nat) : Bool :=
  hdl == HDL_1 || hdl == HDL_H

/-- C macro `INT_TO_HDL(i)`: `((i) != 0) ? HDL_1 : HDL_0`. -/
def INT_TO_HDL (i : Nat) : Nat :=
  if i ≠ 0 then HDL_1 else HDL_0

/-- `state_t` of `cosim_jtag.c` (in `vhpi_jtag.c` the same five values are
a `char state[5]` array in the order tck, tms, tdi, trst, srst). -/
structure state_t where
  tck : Nat
  tms : Nat
  tdi : Nat
  trst : Nat
  srst : Nat
deriving DecidableEq, Repr

/-- Initializer of the static `state` variable in both variants:
`{HDL_X, HDL_X, HDL_X, HDL_0, HDL_0}`. -/
def stateInit : state_t :=
  ⟨HDL_X, HDL_X, HDL_X, HDL_0, HDL_0⟩

/-- `drive_from_state` of `cosim_jtag.c`: copies the five state values to
the output arguments. -/
def drive_from_state (s : state_t) : state_t :=
  ⟨s.tck, s.tms, s.tdi, s.trst, s.srst⟩

/-- Outcome of the C call `read(data_socket, &buffer, 1)`:
`err e` is `ret == -1` with `errno = e`, `zero` is `ret == 0`
(a zero-length read), `byte b` is `ret == 1` with `buffer = b`. -/
inductive ReadResult where
  | err (errno : Nat)
  | zero
  | byte (b : Nat)
deriving DecidableEq, Repr

/-- Result of one run of the body of `process_socket`: the signal state
after the call, the response byte written to the socket (if any), and
whether the data socket was closed (`data_socket = -1`). -/
structure PSOut where
  st : state_t
  emitted : Option Nat
  closed : Bool
deriving DecidableEq, Repr

/-- `process_socket` of `cosim_jtag.c` (lines 143-203). `rr` is what the
`read` call returns, `wok` is whether the `write` call in the read-request
case succeeds. `none` is the `FAIL` path (read returned -1, or write
returned -1). A `ret == 0` read returns with no further action. The
switch cases '0'..'7' share one body computing `val = buffer - '0'` and
masking bits 0b100/0b010/0b001; cases 'r'..'u' share one body computing
`val = buffer - 'r'` and masking bits 0b10/0b01 (that body falls through
to the empty `default`). -/
def process_socket (tdo : Nat) (st : state_t) (rr : ReadResult) (wok : Bool) :
    Option PSOut :=
  match rr with
  | .err _ => none
  | .zero => some ⟨st, none, false⟩
  | .byte b =>
    if b = 66 ∨ b = 98 then -- 'B', 'b': blink on/off
      some ⟨st, none, false⟩
    else if b = 82 then -- 'R': read request
      let val := if HDL_TO_INT tdo then 49 else 48
      if wok then some ⟨st, some val, false⟩ else none
    else if b = 81 then -- 'Q': quit request
      some ⟨st, none, true⟩
    else if 48 ≤ b ∧ b ≤ 55 then -- '0'..'7': write tck tms tdi
      let val := b - 48
      some ⟨{ st with tck := INT_TO_HDL (val &&& 4),
                      tms := INT_TO_HDL (val &&& 2),
                      tdi := INT_TO_HDL (val &&& 1) }, none, false⟩
    else if 114 ≤ b ∧ b ≤ 117 then -- 'r'..'u': write trst srst
      let val := b - 114
      some ⟨{ st with trst := INT_TO_HDL (val &&& 2),
                      srst := INT_TO_HDL (val &&& 1) }, none, false⟩
    else -- default: ignore
      some ⟨st, none, false⟩

/-- `set_state` of `vhpi_jtag.c` (lines 105-110): sets tck, tms, tdi
through `INT_TO_HDL`. -/
def set_state (tck tms tdi : Nat) (st : state_t) : state_t :=
  { st with tck := INT_TO_HDL tck, tms := INT_TO_HDL tms, tdi := INT_TO_HDL tdi }

/-- `set_reset` of `vhpi_jtag.c` (lines 113-117): sets trst, srst through
`INT_TO_HDL`. -/
def set_reset (trst srst : Nat) (st : state_t) : state_t :=
  { st with trst := INT_TO_HDL trst, srst := INT_TO_HDL srst }

/-- `process_socket` of `vhpi_jtag.c` (lines 119-197): same shape as the
`cosim_jtag.c` variant but with one switch case per write byte, each
calling `set_state`/`set_reset` with literal bits. -/
def process_socket_vhpi (tdo : Nat) (st : state_t) (rr : ReadResult) (wok : Bool) :
    Option PSOut :=
  match rr with
  | .err _ => none
  | .zero => some ⟨st, none, false⟩
  | .byte b =>
    if b = 66 ∨ b = 98 then -- 'B', 'b'
      some ⟨st, none, false⟩
    else if b = 82 then -- 'R'
      if wok then some ⟨st, some (if HDL_TO_INT tdo then 49 else 48), false⟩
      else none
    else if b = 81 then -- 'Q'
      some ⟨st, none, true⟩
    else if b = 48 then some ⟨set_state 0 0 0 st, none, false⟩ -- '0'
    else if b = 49 then some ⟨set_state 0 0 1 st, none, false⟩ -- '1'
    else if b = 50 then some ⟨set_state 0 1 0 st, none, false⟩ -- '2'
    else if b = 51 then some ⟨set_state 0 1 1 st, none, false⟩ -- '3'
    else if b = 52 then some ⟨set_state 1 0 0 st, none, false⟩ -- '4'
    else if b = 53 then some ⟨set_state 1 0 1 st, none, false⟩ -- '5'
    else if b = 54 then some ⟨set_state 1 1 0 st, none, false⟩ -- '6'
    else if b = 55 then some ⟨set_state 1 1 1 st, none, false⟩ -- '7'
    else if b = 114 then some ⟨set_reset 0 0 st, none, false⟩ -- 'r'
    else if b = 115 then some ⟨set_reset 0 1 st, none, false⟩ -- 's'
    else if b = 116 then some ⟨set_reset 1 0 st, none, false⟩ -- 't'
    else if b = 117 then some ⟨set_reset 1 1 st, none, false⟩ -- 'u'
    else
      some ⟨st, none, false⟩

/-- The command bytes recognized by the decoder switch:
'B', 'b', 'R', 'Q', '0'..'7', 'r'..'u'. -/
def recognizedByte (b : Nat) : Prop :=
  b = 66 ∨ b = 98 ∨ b = 82 ∨ b = 81 ∨ (48 ≤ b ∧ b ≤ 55) ∨ (114 ≤ b ∧ b ≤ 117)

instance (b : Nat) : Decidable (recognizedByte b) := by
  unfold recognizedByte; infer_instance

/-- A read outcome that is not a write command: the tick decoded no
'0'..'7' byte and no 'r'..'u' byte. -/
def writeFreeRead : ReadResult → Prop
  | .byte b => ¬ (48 ≤ b ∧ b ≤ 55) ∧ ¬ (114 ≤ b ∧ b ≤ 117)
  | _ => True

instance (rr : ReadResult) : Decidable (writeFreeRead rr) := by
  cases rr <;> simp only [writeFreeRead] <;> infer_instance

/-- Outcome of the C call `accept(listen_socket, NULL, NULL)`:
`conn` is success, `eagain` is -1 with `errno == EAGAIN` (no pending
peer), `err e` is -1 with any other errno. -/
inductive AcceptResult where
  | conn
  | eagain
  | err (errno : Nat)
deriving DecidableEq, Repr

/-- The per-tick oracle: the sampled input byte `tdo` handed in by the
simulator, and what each system call performed this tick would return. -/
structure TickInput where
  tdo : Nat
  createOk : Bool
  acceptRes : AcceptResult
  readRes : ReadResult
  writeOk : Bool
deriving DecidableEq, Repr

/-- The process-global mutable state of `cosim_jtag.c`: whether
`listen_socket != -1` and whether `data_socket != -1`, the `O_NONBLOCK`
status flag of each of those descriptors, the number of currently open
accepted connections (a ghost counter: incremented when `accept`
succeeds, decremented when `close(data_socket)` runs), and the static
`state` variable. -/
structure Engine where
  listenOpen : Bool
  listenNonBlock : Bool
  dataOpen : Bool
  dataNonBlock : Bool
  openCount : Nat
  st : state_t
deriving DecidableEq, Repr

/-- The engine at process start: both sockets are -1 and `state` holds
its initializer. -/
def engineInit : Engine :=
  ⟨false, false, false, false, 0, stateInit⟩

/-- `create_socket` of `cosim_jtag.c` (lines 53-87): on success the
listening socket exists and `fcntl(listen_socket, F_SETFL, O_NONBLOCK)`
has been applied to it; any failure of `socket`/`bind`/`listen` is the
fatal `FAIL` path. -/
def create_socket (createOk : Bool) (e : Engine) : Option Engine :=
  if createOk then
    some { e with listenOpen := true, listenNonBlock := true }
  else none

/-- `accept_connection` of `cosim_jtag.c` (lines 89-103): -1 with
`errno != EAGAIN` is the fatal `FAIL` path; -1 with EAGAIN is a silent
no-op; on success `data_socket` becomes the accepted descriptor. The C
code performs no `fcntl` on the accepted socket, so its `O_NONBLOCK`
flag is whatever the platform's `accept` gives it: the `inherit`
parameter is that platform choice (POSIX leaves it unspecified; on Linux
the flag is not inherited, i.e. `inherit = false`). -/
def accept_connection (inherit : Bool) (res : AcceptResult) (e : Engine) :
    Option Engine :=
  match res with
  | .conn => some { e with dataOpen := true,
                           dataNonBlock := inherit && e.listenNonBlock,
                           openCount := e.openCount + 1 }
  | .eagain => some e
  | .err _ => none

/-- What one tick reports: the engine afterwards, the five driven output
values (always produced, via `drive_from_state`), the response byte
written (if any), and whether `accept` and `read` were called this
tick. -/
structure TickTrace where
  engine : Engine
  driven : state_t
  emitted : Option Nat
  acceptTried : Bool
  readTried : Bool
deriving DecidableEq, Repr

/-- `cosim_jtag_tick` of `cosim_jtag.c` (lines 209-231): create the
listening socket if not yet open, accept a pending connection if none is
active, process one byte from the data socket if one is active, and
always drive the outputs from the current state. `none` is any fatal
`FAIL` path. -/
def cosim_jtag_tick (inherit : Bool) (e : Engine) (inp : TickInput) :
    Option TickTrace :=
  (if e.listenOpen then some e else create_socket inp.createOk e).bind fun e1 =>
  (if e1.dataOpen then some e1 else accept_connection inherit inp.acceptRes e1).bind fun e2 =>
  if e2.dataOpen then
    (process_socket inp.tdo e2.st inp.readRes inp.writeOk).bind fun out =>
      let e3 : Engine :=
        if out.closed then
          { e2 with dataOpen := false, dataNonBlock := false,
                    openCount := e2.openCount - 1, st := out.st }
        else { e2 with st := out.st }
      some ⟨e3, drive_from_state e3.st, out.emitted, !e1.dataOpen, true⟩
  else
    some ⟨e2, drive_from_state e2.st, none, !e1.dataOpen, false⟩

/-- One tick, keeping only the engine state. -/
def tickE (inherit : Bool) (e : Engine) (inp : TickInput) : Option Engine :=
  (cosim_jtag_tick inherit e inp).map TickTrace.engine

/-- A sequence of ticks; `none` if any tick hit a fatal path. -/
def runTicks (inherit : Bool) (e : Engine) : List TickInput → Option Engine
  | [] => some e
  | inp :: rest =>
    match tickE inherit e inp with
    | none => none
    | some e1 => runTicks inherit e1 rest

/-- The engine states reachable from process start by ticking. -/
inductive Reachable : Engine → Prop where
  | init : Reachable engineInit
  | step {inherit : Bool} {e : Engine} {inp : TickInput} {t : TickTrace} :
      Reachable e → cosim_jtag_tick inherit e inp = some t → Reachable t.engine

/-- Scenario: a tick in which the peer sends 'Q'. -/
def afterQuit (inherit : Bool) (e : Engine) (tdo : Nat) (wok : Bool) :
    Option Engine :=
  tickE inherit e ⟨tdo, true, .eagain, .byte 81, wok⟩

/-- Scenario: after the quit tick, a tick in which a new peer connects
(and has sent nothing yet). -/
def afterReconnect (inherit : Bool) (e : Engine) (tdo : Nat) (wok : Bool) :
    Option Engine :=
  (afterQuit inherit e tdo wok).bind fun e1 =>
    tickE inherit e1 ⟨tdo, true, .conn, .zero, wok⟩

/-- Scenario: after the reconnect tick, a tick in which the new peer
sends byte `b`. -/
def afterWrite (inherit : Bool) (e : Engine) (tdo : Nat) (wok : Bool) (b : Nat) :
    Option Engine :=
  (afterReconnect inherit e tdo wok).bind fun e2 =>
    tickE inherit e2 ⟨tdo, true, .eagain, .byte b, wok⟩

/-- Helper: the write-bits cases of `process_socket`, stated with the
source's mask arithmetic. -/
theorem process_socket_write_case (b tdo : Nat) (st : state_t) (wok : Bool)
    (h1 : 48 ≤ b) (h2 : b ≤ 55) :
    process_socket tdo st (.byte b) wok =
      some ⟨{ st with tck := INT_TO_HDL ((b - 48) &&& 4),
                      tms := INT_TO_HDL ((b - 48) &&& 2),
                      tdi := INT_TO_HDL ((b - 48) &&& 1) }, none, false⟩ := by
  interval_cases b <;> rfl

/-- Helper: any byte outside the recognized command set falls through to
the default case of `process_socket` in `cosim_jtag.c`. -/
theorem process_socket_default (b tdo : Nat) (st : state_t) (wok : Bool)
    (h : ¬ recognizedByte b) :
    process_socket tdo st (.byte b) wok = some ⟨st, none, false⟩ := by
  unfold recognizedByte at h
  simp only [process_socket]
  rw [if_neg (show ¬ (b = 66 ∨ b = 98) from by omega)]
  rw [if_neg (show b ≠ 82 from by omega)]
  rw [if_neg (show b ≠ 81 from by omega)]
  rw [if_neg (show ¬ (48 ≤ b ∧ b ≤ 55) from by omega)]
  rw [if_neg (show ¬ (114 ≤ b ∧ b ≤ 117) from by omega)]

/-- Helper: any byte outside the recognized command set falls through to
the default case of `process_socket` in `vhpi_jtag.c`. -/
theorem process_socket_vhpi_default (b tdo : Nat) (st : state_t) (wok : Bool)
    (h : ¬ recognizedByte b) :
    process_socket_vhpi tdo st (.byte b) wok = some ⟨st, none, false⟩ := by
  unfold recognizedByte at h
  simp only [process_socket_vhpi]
  rw [if_neg (show ¬ (b = 66 ∨ b = 98) from by omega)]
  rw [if_neg (show b ≠ 82 from by omega)]
  rw [if_neg (show b ≠ 81 from by omega)]
  rw [if_neg (show b ≠ 48 from by omega)]
  rw [if_neg (show b ≠ 49 from by omega)]
  rw [if_neg (show b ≠ 50 from by omega)]
  rw [if_neg (show b ≠ 51 from by omega)]
  rw [if_neg (show b ≠ 52 from by omega)]
  rw [if_neg (show b ≠ 53 from by omega)]
  rw [if_neg (show b ≠ 54 from by omega)]
  rw [if_neg (show b ≠ 55 from by omega)]
  rw [if_neg (show b ≠ 114 from by omega)]
  rw [if_neg (show b ≠ 115 from by omega)]
  rw [if_neg (show b ≠ 116 from by omega)]
  rw [if_neg (show b ≠ 117 from by omega)]

/-- Claim C3: for every byte b in '0'..'7', decoding b sets tck to bit 2,
tms to bit 1 and tdi to bit 0 of (b - '0'), mapping bit 1 to driven-1
(`HDL_1`) and bit 0 to driven-0 (`HDL_0`), and leaves trst and srst
unchanged (the record update keeps the remaining fields of `st`). -/
theorem write_bits_decode (b tdo : Nat) (st : state_t) (wok : Bool)
    (h1 : 48 ≤ b) (h2 : b ≤ 55) :
    process_socket tdo st (.byte b) wok =
      some ⟨{ st with tck := if (b - 48).testBit 2 then HDL_1 else HDL_0,
                      tms := if (b - 48).testBit 1 then HDL_1 else HDL_0,
                      tdi := if (b - 48).testBit 0 then HDL_1 else HDL_0 },
            none, false⟩ := by
  interval_cases b <;> rfl

/-- Witness for C3 at b = '5' (= 53): tck := driven-1, tms := driven-0,
tdi := driven-1, trst and srst untouched. -/
theorem write_bits_decode_witness :
    process_socket HDL_0 ⟨HDL_X, HDL_X, HDL_X, HDL_0, HDL_0⟩ (.byte 53) true =
      some ⟨⟨HDL_1, HDL_0, HDL_1, HDL_0, HDL_0⟩, none, false⟩ :=
  (write_bits_decode 53 HDL_0 ⟨HDL_X, HDL_X, HDL_X, HDL_0, HDL_0⟩ true
    (by decide) (by decide)).trans (by decide)

/-- Claim C4: for every byte b in 'r'..'u', decoding b sets trst to bit 1
and srst to bit 0 of (b - 'r'), and leaves tck, tms and tdi unchanged
(the record update keeps the remaining fields of `st`). -/
theorem write_reset_decode (b tdo : Nat) (st : state_t) (wok : Bool)
    (h1 : 114 ≤ b) (h2 : b ≤ 117) :
    process_socket tdo st (.byte b) wok =
      some ⟨{ st with trst := if (b - 114).testBit 1 then HDL_1 else HDL_0,
                      srst := if (b - 114).testBit 0 then HDL_1 else HDL_0 },
            none, false⟩ := by
  interval_cases b <;> rfl

/-- Witness for C4 at b = 't' (= 116): trst := driven-1, srst := driven-0,
tck, tms and tdi untouched. -/
theorem write_reset_decode_witness :
    process_socket HDL_0 ⟨HDL_X, HDL_X, HDL_X, HDL_0, HDL_0⟩ (.byte 116) true =
      some ⟨⟨HDL_X, HDL_X, HDL_X, HDL_1, HDL_0⟩, none, false⟩ :=
  (write_reset_decode 116 HDL_0 ⟨HDL_X, HDL_X, HDL_X, HDL_0, HDL_0⟩ true
    (by decide) (by decide)).trans (by decide)

/-- Claim C5: decoding 'R' emits exactly one response byte: '1' (= 49) if
the sampled input is driven-1 (`HDL_1`) or the high variant (`HDL_H`),
otherwise '0' (= 48); the signal state is unchanged and the connection is
kept. (Stated with a successful write; a failed write is the fatal `FAIL`
path.) -/
theorem read_request_response (tdo : Nat) (st : state_t) :
    process_socket tdo st (.byte 82) true =
      some ⟨st, some (if tdo = HDL_1 ∨ tdo = HDL_H then 49 else 48), false⟩ := by
  by_cases h : tdo = HDL_1 ∨ tdo = HDL_H
  · rcases h with h | h <;> subst h <;> rfl
  · push_neg at h
    have hb : (tdo == HDL_1 || tdo == HDL_H) = false := by
      simp [h.1, h.2]
    simp [process_socket, HDL_TO_INT, hb, h.1, h.2]

/-- Claim C9: decoding is total (the embedding is a total function on all
of `Nat`, covering every byte value), and every unrecognized byte — any b
with `¬ recognizedByte b`, e.g. 'Z' — produces no signal-state change, no
response byte and no close. -/
theorem unknown_byte_noop (b tdo : Nat) (st : state_t) (wok : Bool)
    (h : ¬ recognizedByte b) :
    process_socket tdo st (.byte b) wok = some ⟨st, none, false⟩ :=
  process_socket_default b tdo st wok h

/-- Witness for C9 at b = 'Z' (= 90): state unchanged, nothing emitted. -/
theorem unknown_byte_noop_witness :
    process_socket HDL_1 ⟨HDL_X, HDL_X, HDL_X, HDL_0, HDL_0⟩ (.byte 90) true =
      some ⟨⟨HDL_X, HDL_X, HDL_X, HDL_0, HDL_0⟩, none, false⟩ :=
  unknown_byte_noop 90 HDL_1 ⟨HDL_X, HDL_X, HDL_X, HDL_0, HDL_0⟩ true (by decide)

/-- Claim C10: the decoders of the two source variants are extensionally
equal: for every sampled input, every signal state, every read outcome
(including every command byte) and every write outcome, `process_socket`
of `cosim_jtag.c` and `process_socket` of `vhpi_jtag.c` produce the same
state transition, the same response byte (or absence of one), and the
same close/fatal outcome. -/
theorem decoders_equivalent (tdo : Nat) (st : state_t) (rr : ReadResult) (wok : Bool) :
    process_socket tdo st rr wok = process_socket_vhpi tdo st rr wok := by
  cases rr with
  | err e => rfl
  | zero => rfl
  | byte b =>
    rcases Nat.lt_or_ge b 118 with hb | hb
    · interval_cases b <;> rfl
    · rw [process_socket_default b tdo st wok (by unfold recognizedByte; omega),
        process_socket_vhpi_default b tdo st wok (by unfold recognizedByte; omega)]

/-- Helper: when the byte read (if any) is not a write command,
`process_socket` leaves the signal state unchanged. -/
theorem process_socket_preserves_state (tdo : Nat) (st : state_t)
    (rr : ReadResult) (wok : Bool) (out : PSOut)
    (hw : writeFreeRead rr)
    (h : process_socket tdo st rr wok = some out) : out.st = st := by
  cases rr with
  | err e => simp [process_socket] at h
  | zero =>
    simp only [process_socket] at h
    cases h
    rfl
  | byte b =>
    replace hw : ¬ (48 ≤ b ∧ b ≤ 55) ∧ ¬ (114 ≤ b ∧ b ≤ 117) := hw
    simp only [process_socket] at h
    split_ifs at h <;>
      first
        | omega
        | (cases h; rfl)

/-- Helper: per-tick facts used by the session-level claims: `accept` is
called exactly when no connection is active at tick entry; the
open-connection counter invariant is preserved; and a tick whose read
outcome is not a write command leaves the signal state unchanged. -/
theorem tick_step_facts (inherit : Bool) (e : Engine) (inp : TickInput)
    (t : TickTrace) (h : cosim_jtag_tick inherit e inp = some t) :
    (t.acceptTried = !e.dataOpen) ∧
    (e.openCount = (if e.dataOpen then 1 else 0) →
      t.engine.openCount = if t.engine.dataOpen then 1 else 0) ∧
    (writeFreeRead inp.readRes → t.engine.st = e.st) := by
  obtain ⟨lo, lnb, dop, dnb, oc, s⟩ := e
  obtain ⟨tdo, cok, ares, rres, wok⟩ := inp
  simp only [cosim_jtag_tick, create_socket, accept_connection] at h
  cases lo <;> cases dop <;> cases cok <;> cases ares <;>
    simp only [Bool.false_eq_true, if_false, if_true, Option.none_bind,
      Option.some_bind, reduceCtorEq, Bool.not_false, Bool.not_true] at h <;>
    first
      | (cases h; exact ⟨rfl, fun hinv => hinv, fun hwf => rfl⟩)
      | (rcases Option.bind_eq_some.mp h with ⟨out, hout, hsome⟩
         cases hsome
         refine ⟨rfl, fun hinv => ?_, fun hwf => ?_⟩
         · simp at hinv
           cases hcl : out.closed <;> simp [hcl] <;> omega
         · have hs := process_socket_preserves_state _ _ _ _ _ hwf hout
           cases hcl : out.closed <;> simp [hcl, hs])

/-- Helper: in every reachable engine state the ghost counter of open
accepted connections equals 1 when a connection is active and 0
otherwise. -/
theorem reachable_openCount (e : Engine) (he : Reachable e) :
    e.openCount = if e.dataOpen then 1 else 0 := by
  induction he with
  | init => rfl
  | step hr ht ih => exact (tick_step_facts _ _ _ _ ht).2.1 ih

/-- Helper: a run of ticks none of which reads a write command leaves the
signal state unchanged. -/
theorem runTicks_preserves_state (inherit : Bool) (inps : List TickInput)
    (h : ∀ inp ∈ inps, writeFreeRead inp.readRes) (e e' : Engine)
    (hrun : runTicks inherit e inps = some e') : e'.st = e.st := by
  induction inps generalizing e with
  | nil =>
    simp only [runTicks] at hrun
    cases hrun
    rfl
  | cons inp rest ih =>
    simp only [runTicks] at hrun
    rcases htick : tickE inherit e inp with _ | e1
    · rw [htick] at hrun
      cases hrun
    · rw [htick] at hrun
      rcases Option.map_eq_some'.mp htick with ⟨t, ht, hengine⟩
      have h1 : e1.st = e.st := by
        rw [← hengine]
        exact (tick_step_facts _ _ _ _ ht).2.2 (h inp (by simp))
      have h2 : e'.st = e1.st := ih (fun i hi => h i (by simp [hi])) e1 hrun
      rw [h2, h1]

/-- Claim C1 (evidence of the divergence): in the Connected state a
zero-length read (`read` returning 0, i.e. the peer closed the
connection) is NOT treated as a disconnect by `cosim_jtag.c`: line 157
returns with the comment "no data to process", so the tick succeeds with
the active connection retained (`dataOpen` still `true` in the resulting
engine and no accept attempted), the engine never reverts to accepting
new peers, and the signal state is unchanged. -/
theorem zero_length_read_keeps_connection :
    cosim_jtag_tick false ⟨true, true, true, false, 1, stateInit⟩
        ⟨HDL_0, true, .eagain, .zero, true⟩ =
      some ⟨⟨true, true, true, false, 1, stateInit⟩, stateInit, none, false, true⟩ := by
  decide

/-- Claim C2 (evidence of the divergence): first conjunct: a fresh
engine's first tick with a pending peer accepts it, but under Linux
`accept` semantics (`inherit = false`; the C code performs no `fcntl` on
the accepted descriptor) the resulting data socket does not carry
`O_NONBLOCK` — its flag is `false` (fourth field of the resulting
engine), so the single-byte read of the active connection is not a
non-blocking read. Second conjunct: were the descriptor non-blocking, a
tick with no peer data would make `read` return -1 with
`errno == EAGAIN` (11), and `process_socket` treats every -1 from `read`
as the fatal `FAIL` path (unlike `accept_connection`, which exempts
EAGAIN): the tick aborts instead of completing. -/
theorem data_read_blocking_or_eagain_fatal :
    (cosim_jtag_tick false engineInit ⟨HDL_0, true, .conn, .zero, true⟩ =
      some ⟨⟨true, true, true, false, 1, stateInit⟩, stateInit, none, true, true⟩) ∧
    (cosim_jtag_tick false ⟨true, true, true, false, 1, stateInit⟩
        ⟨HDL_0, true, .eagain, .err 11, true⟩ = none) := by
  decide

/-- Claim C6: from any listening engine with an active connection,
decoding 'Q' discards the connection (the engine reverts to no active
connection) without touching the signal state; a new connection is
accepted on a later tick, again without touching the signal state; and a
write byte decoded on the new connection operates on the persisted
signal state carried over from before the quit (the result is a record
update of `e.st`, so in particular trst and srst keep their pre-quit
values, not the power-on defaults). -/
theorem quit_then_reconnect_persists (e : Engine) (inherit : Bool)
    (tdo : Nat) (wok : Bool) (b : Nat)
    (h1 : e.listenOpen = true) (h2 : e.dataOpen = true)
    (hb1 : 48 ≤ b) (hb2 : b ≤ 55) :
    (afterQuit inherit e tdo wok).map Engine.dataOpen = some false ∧
    (afterQuit inherit e tdo wok).map Engine.st = some e.st ∧
    (afterReconnect inherit e tdo wok).map Engine.dataOpen = some true ∧
    (afterReconnect inherit e tdo wok).map Engine.st = some e.st ∧
    (afterWrite inherit e tdo wok b).map Engine.st =
      some { e.st with tck := INT_TO_HDL ((b - 48) &&& 4),
                       tms := INT_TO_HDL ((b - 48) &&& 2),
                       tdi := INT_TO_HDL ((b - 48) &&& 1) } := by
  obtain ⟨lo, lnb, dop, dnb, oc, s⟩ := e
  dsimp only at h1 h2
  subst h1
  subst h2
  interval_cases b <;> exact ⟨rfl, rfl, rfl, rfl, rfl⟩

/-- Witness for C6 at a concrete engine whose signal state differs from
the power-on defaults (tck/tms/tdi driven, trst/srst driven-1): after
quit and reconnect, decoding '2' (= 50) yields tck/tms/tdi from the new
write while trst and srst keep the persisted driven-1 values. -/
theorem quit_then_reconnect_persists_witness :
    (afterQuit false ⟨true, true, true, false, 1, ⟨HDL_1, HDL_0, HDL_1, HDL_1, HDL_1⟩⟩
        HDL_0 true).map Engine.dataOpen = some false ∧
    (afterQuit false ⟨true, true, true, false, 1, ⟨HDL_1, HDL_0, HDL_1, HDL_1, HDL_1⟩⟩
        HDL_0 true).map Engine.st = some ⟨HDL_1, HDL_0, HDL_1, HDL_1, HDL_1⟩ ∧
    (afterReconnect false ⟨true, true, true, false, 1, ⟨HDL_1, HDL_0, HDL_1, HDL_1, HDL_1⟩⟩
        HDL_0 true).map Engine.dataOpen = some true ∧
    (afterReconnect false ⟨true, true, true, false, 1, ⟨HDL_1, HDL_0, HDL_1, HDL_1, HDL_1⟩⟩
        HDL_0 true).map Engine.st = some ⟨HDL_1, HDL_0, HDL_1, HDL_1, HDL_1⟩ ∧
    (afterWrite false ⟨true, true, true, false, 1, ⟨HDL_1, HDL_0, HDL_1, HDL_1, HDL_1⟩⟩
        HDL_0 true 50).map Engine.st = some ⟨HDL_0, HDL_1, HDL_0, HDL_1, HDL_1⟩ :=
  quit_then_reconnect_persists ⟨true, true, true, false, 1, ⟨HDL_1, HDL_0, HDL_1, HDL_1, HDL_1⟩⟩
    false HDL_0 true 50 rfl rfl (by decide) (by decide)

/-- Claim C7: in every reachable engine state at most one accepted
connection is open (the ghost counter of open accepted connections is at
most 1), and `accept` is attempted on a tick exactly when no connection
is active at tick entry. -/
theorem at_most_one_active_connection (e : Engine) (he : Reachable e) :
    e.openCount ≤ 1 ∧
    (∀ (inherit : Bool) (inp : TickInput) (t : TickTrace),
      cosim_jtag_tick inherit e inp = some t →
        (t.acceptTried = true ↔ e.dataOpen = false)) := by
  constructor
  · have h := reachable_openCount e he
    rw [h]
    split <;> omega
  · intro inherit inp t ht
    have h := (tick_step_facts inherit e inp t ht).1
    rw [h]
    cases hd : e.dataOpen <;> simp

/-- Witness for C7 at the initial engine. -/
theorem at_most_one_active_connection_witness : engineInit.openCount ≤ 1 :=
  (at_most_one_active_connection engineInit Reachable.init).1

/-- Claim C8: before any write command is decoded — in particular before
any connection is accepted, since without an active connection no byte
is ever read — the signal state equals its power-on defaults:
tck = unknown (`HDL_X`), tms = unknown, tdi = unknown,
trst = driven-0 (`HDL_0`), srst = driven-0. Formally: any fatal-free run
from process start in which no tick's read outcome is a write command
ends with the initializer state. -/
theorem state_defaults_before_write (inherit : Bool) (inps : List TickInput)
    (h : ∀ inp ∈ inps, writeFreeRead inp.readRes) (e : Engine)
    (hrun : runTicks inherit engineInit inps = some e) :
    e.st = ⟨HDL_X, HDL_X, HDL_X, HDL_0, HDL_0⟩ :=
  runTicks_preserves_state inherit inps h engineInit e hrun

/-- Witness for C8: three ticks — an idle unconnected tick, a tick that
accepts a peer and answers its read request 'R', and a tick decoding its
quit 'Q' — end with the signal state still at the power-on defaults. -/
theorem state_defaults_before_write_witness :
    (⟨true, true, false, false, 0, stateInit⟩ : Engine).st =
      ⟨HDL_X, HDL_X, HDL_X, HDL_0, HDL_0⟩ :=
  state_defaults_before_write false
    [⟨HDL_0, true, .eagain, .zero, true⟩,
     ⟨HDL_1, true, .conn, .byte 82, true⟩,
     ⟨HDL_1, true, .eagain, .byte 81, true⟩]
    (by decide) ⟨true, true, false, false, 0, stateInit⟩ (by decide)
